import Mathlib

/-!
Verification of the touch-gesture decoder in `client.py` (class
`SessionRecorder`): the getevent line parser (`parse_line`), the touch-session
state machine (`process_event` / `on_touch_end`), and the gesture classifier
(`detect_gesture`).

Modelling conventions:
- Python `float` time values are modelled as exact rationals (`ℚ`);
  the float square root in `detect_gesture` is eliminated by comparing
  squared distances against squared thresholds (sqrt is monotone).
- Python `int(a * b / c)` on nonnegative machine-range operands truncates
  toward zero; it is modelled by `Int.tdiv`.
- Python truthiness of `Optional` fields (the `all([...])` guard in
  `on_touch_end`) is modelled exactly: `None` and `0` are both falsy.
- The mutating methods become functions `TouchState → TouchState × _`;
  the ambient clock `time.time()` becomes an explicit `now : ℚ` argument.
-/

/-- One decoded getevent line (dataclass `EventData` in `client.py`). -/
structure EventData where
  device : String
  type : Nat
  code : Nat
  value : Int
deriving DecidableEq

/-- The gesture enumeration of `client.py`. -/
inductive GestureType
  | CLICK
  | SWIPE_LEFT
  | SWIPE_RIGHT
  | SWIPE_UP
  | SWIPE_DOWN
deriving DecidableEq

/-- Dataclass `TouchState` of `client.py`; `start_time` is an optional clock
reading (Python float, modelled as `ℚ`). -/
structure TouchState where
  x : Int
  y : Int
  tracking_id : Int
  touching : Bool
  start_x : Option Int
  start_y : Option Int
  start_time : Option ℚ
deriving DecidableEq

/-- Default-constructed `TouchState()` (field defaults of the dataclass). -/
def TouchState.init : TouchState :=
  { x := 0, y := 0, tracking_id := -1, touching := false,
    start_x := none, start_y := none, start_time := none }

/-- The action records appended to `self.actions` by `on_touch_end`. -/
inductive ActionRecord
  | click (x y : Int)
  | swipe (start_x start_y end_x end_y : Int) (direction : String)
deriving DecidableEq

/-- Threshold `self.click_max_duration = 0.3` (seconds). -/
def click_max_duration : ℚ := 3 / 10

/-- Threshold `self.click_max_distance = 100` (pixels). -/
def click_max_distance : Int := 100

/-- Threshold `self.swipe_min_distance = 200` (pixels). -/
def swipe_min_distance : Int := 200

/-- Event type constant `EV_KEY = 0x0001`. -/
def EV_KEY : Nat := 0x0001

/-- Event type constant `EV_ABS = 0x0003`. -/
def EV_ABS : Nat := 0x0003

/-- Event type constant `EV_SYN = 0x0000`. -/
def EV_SYN : Nat := 0x0000

/-- Event code constant `ABS_MT_TRACKING_ID = 0x0039`. -/
def ABS_MT_TRACKING_ID : Nat := 0x0039

/-- Event code constant `ABS_MT_POSITION_X = 0x0035`. -/
def ABS_MT_POSITION_X : Nat := 0x0035

/-- Event code constant `ABS_MT_POSITION_Y = 0x0036`. -/
def ABS_MT_POSITION_Y : Nat := 0x0036

/-- Event code constant `BTN_TOUCH = 0x014a`. -/
def BTN_TOUCH : Nat := 0x014a

/-- `SessionRecorder.scale_coordinate`: per-axis linear rescaling
`int(x * 1008 / 1343), int(y * 2244 / 2991)` (truncation toward zero). -/
def scale_coordinate (x y : Int) : Int × Int :=
  (Int.tdiv (x * 1008) 1343, Int.tdiv (y * 2244) 2991)

/-- `SessionRecorder.detect_gesture`, with `now` the value of `time.time()`
at the call.  `distance <= d` / `distance >= d` on the Euclidean distance are
expressed on squares. -/
def detect_gesture (now : ℚ) (s : TouchState) : Option GestureType :=
  match s.start_x, s.start_y, s.start_time with
  | some sx, some sy, some st =>
    let dx := s.x - sx
    let dy := s.y - sy
    let dist2 := dx ^ 2 + dy ^ 2
    if now - st ≤ click_max_duration ∧ dist2 ≤ click_max_distance ^ 2 then
      some GestureType.CLICK
    else if dist2 ≥ swipe_min_distance ^ 2 then
      if |dx| > |dy| then
        if dx > 0 then some GestureType.SWIPE_RIGHT else some GestureType.SWIPE_LEFT
      else
        if dy > 0 then some GestureType.SWIPE_UP else some GestureType.SWIPE_DOWN
    else none
  | _, _, _ => none

/-- Python truthiness of an `Optional[int]` field: `None` and `0` are falsy. -/
def py_truthy_int : Option Int → Bool
  | none => false
  | some v => v != 0

/-- Python truthiness of the `Optional[float]` field `start_time`. -/
def py_truthy_time : Option ℚ → Bool
  | none => false
  | some v => v != 0

/-- The guard of `on_touch_end`:
`all([self.touch_state.start_x, self.touch_state.start_y, self.touch_state.start_time])`.
Note this is Python truthiness, not an `is not None` test. -/
def touch_end_proceeds (s : TouchState) : Bool :=
  py_truthy_int s.start_x && py_truthy_int s.start_y && py_truthy_time s.start_time

/-- `gesture.name.replace("SWIPE_", "").lower()` on the swipe members. -/
def direction_name : GestureType → String
  | GestureType.CLICK => "click"
  | GestureType.SWIPE_LEFT => "left"
  | GestureType.SWIPE_RIGHT => "right"
  | GestureType.SWIPE_UP => "up"
  | GestureType.SWIPE_DOWN => "down"

/-- `SessionRecorder.on_touch_end`: if the truthiness guard fails, return with
the state untouched; otherwise classify, build the action record (if any), and
clear the three start fields.  The `getD 0` reads are exercised only under the
guard, where the fields are present. -/
def on_touch_end (now : ℚ) (s : TouchState) : TouchState × Option ActionRecord :=
  if touch_end_proceeds s then
    let act : Option ActionRecord :=
      match detect_gesture now s with
      | some GestureType.CLICK => some (ActionRecord.click s.x s.y)
      | some g =>
          some (ActionRecord.swipe (s.start_x.getD 0) (s.start_y.getD 0) s.x s.y
            (direction_name g))
      | none => none
    ({ s with start_x := none, start_y := none, start_time := none }, act)
  else (s, none)

/-- `SessionRecorder.process_event`, with the clock reading `now` passed in. -/
def process_event (now : ℚ) (e : EventData) (s : TouchState) :
    TouchState × Option ActionRecord :=
  if e.type = EV_KEY ∧ e.code = BTN_TOUCH then
    let s1 := { s with touching := e.value ≠ 0 }
    if e.value ≠ 0 then ({ s1 with start_time := some now }, none)
    else on_touch_end now s1
  else if e.type = EV_ABS ∧ e.code = ABS_MT_POSITION_X then
    let scaled_x := (scale_coordinate e.value s.y).1
    let s1 := { s with x := scaled_x }
    if s1.start_x = none ∧ s1.touching then
      ({ s1 with start_x := some scaled_x }, none)
    else (s1, none)
  else if e.type = EV_ABS ∧ e.code = ABS_MT_POSITION_Y then
    let scaled_y := (scale_coordinate s.x e.value).2
    let s1 := { s with y := scaled_y }
    if s1.start_y = none ∧ s1.touching then
      ({ s1 with start_y := some scaled_y }, none)
    else (s1, none)
  else if e.type = EV_ABS ∧ e.code = ABS_MT_TRACKING_ID then
    let p := if e.value = -1 then on_touch_end now s else (s, none)
    ({ p.1 with tracking_id := e.value }, p.2)
  else (s, none)

/-- Feed a timed event sequence through `process_event`, collecting the
produced action records in order. -/
def run_events : List (ℚ × EventData) → TouchState → TouchState × List ActionRecord
  | [], s => (s, [])
  | (t, e) :: rest, s =>
    let p := process_event t e s
    let q := run_events rest p.1
    (q.1, p.2.toList ++ q.2)

/-- Python whitespace as stripped by `str.strip()` (ASCII range). -/
def isSpacePy (c : Char) : Bool :=
  c = ' ' || c = '\t' || c = '\n' || c = '\r' || c = '\x0b' || c = '\x0c'

/-- A regex `\w` word character (ASCII range: letters, digits, underscore). -/
def isWordChar (c : Char) : Bool :=
  c.isAlphanum || c = '_'

/-- A character of the regex class `[0-9a-f]` (lowercase only, as in the
patterns of `parse_line`). -/
def isHexLower (c : Char) : Bool :=
  ('0' ≤ c && c ≤ '9') || ('a' ≤ c && c ≤ 'f')

/-- Value of one `[0-9a-f]` digit, as `int(_, 16)` assigns it. -/
def hexDigitVal (c : Char) : Nat :=
  if c ≤ '9' then c.toNat - '0'.toNat else c.toNat - 'a'.toNat + 10

/-- `int(field, 16)`: value of a hex-digit string, most significant first. -/
def hexVal (l : List Char) : Nat :=
  l.foldl (fun a c => a * 16 + hexDigitVal c) 0

/-- `str.strip()`: drop whitespace from both ends. -/
def stripL (l : List Char) : List Char :=
  ((l.dropWhile isSpacePy).reverse.dropWhile isSpacePy).reverse

/-- Match a literal character sequence at the head, returning the remainder. -/
def dropLit : List Char → List Char → Option (List Char)
  | [], l => some l
  | _ :: _, [] => none
  | p :: ps, c :: l => if c = p then dropLit ps l else none

/-- Maximal run of `\w` characters at the head (the greedy `(\w+)` group,
which cannot backtrack past a non-word boundary). -/
def takeWordAux : List Char → List Char × List Char
  | [] => ([], [])
  | c :: l =>
    if isWordChar c then
      let p := takeWordAux l
      (c :: p.1, p.2)
    else ([], c :: l)

/-- Match one expected character at the head. -/
def expectChar (ch : Char) : List Char → Option (List Char)
  | [] => none
  | c :: l => if c = ch then some l else none

/-- Match exactly `n` `[0-9a-f]` characters at the head (the `{n}` counted
repetition), returning them and the remainder. -/
def takeHexN : Nat → List Char → Option (List Char × List Char)
  | 0, l => some ([], l)
  | _ + 1, [] => none
  | n + 1, c :: l =>
    if isHexLower c then (takeHexN n l).map (fun p => (c :: p.1, p.2)) else none

/-- The literal lead-in `/dev/input/` of the first pattern of `parse_line`. -/
def dev_path_chars : List Char :=
  ['/', 'd', 'e', 'v', '/', 'i', 'n', 'p', 'u', 't', '/']

/-- The fallback device id of `parse_line` (`device = "event1"`). -/
def default_device : String := "event1"

/-- `re.match` of pattern
`/dev/input/(\w+): ([0-9a-f]{4}) ([0-9a-f]{4}) ([0-9a-f]{8})` plus the group
decoding of `parse_line`; `re.match` anchors at the start only, so trailing
characters are ignored. -/
def matchWithDevice (l : List Char) : Option EventData :=
  (dropLit dev_path_chars l).bind fun l1 =>
  let w := takeWordAux l1
  if w.1 = [] then none else
  (expectChar ':' w.2).bind fun l2 =>
  (expectChar ' ' l2).bind fun l3 =>
  (takeHexN 4 l3).bind fun t =>
  (expectChar ' ' t.2).bind fun l4 =>
  (takeHexN 4 l4).bind fun c =>
  (expectChar ' ' c.2).bind fun l5 =>
  (takeHexN 8 l5).map fun v =>
    { device := String.mk w.1, type := hexVal t.1, code := hexVal c.1,
      value := (hexVal v.1 : Int) }

/-- `re.match` of pattern `([0-9a-f]{4}) ([0-9a-f]{4}) ([0-9a-f]{8})` plus the
group decoding of `parse_line` (device defaults to `"event1"`). -/
def matchPlain (l : List Char) : Option EventData :=
  (takeHexN 4 l).bind fun t =>
  (expectChar ' ' t.2).bind fun l2 =>
  (takeHexN 4 l2).bind fun c =>
  (expectChar ' ' c.2).bind fun l3 =>
  (takeHexN 8 l3).map fun v =>
    { device := default_device, type := hexVal t.1, code := hexVal c.1,
      value := (hexVal v.1 : Int) }

/-- `SessionRecorder.parse_line` on the character list of the line: try the
device-prefixed pattern on the raw line, else the plain pattern on the
stripped line. -/
def parse_lineL (l : List Char) : Option EventData :=
  match matchWithDevice l with
  | some e => some e
  | none => matchPlain (stripL l)

/-- `SessionRecorder.parse_line`. -/
def parse_line (line : String) : Option EventData :=
  parse_lineL line.data

/-- A list of exactly `n` characters of the class `[0-9a-f]`. -/
abbrev hexList (n : Nat) (l : List Char) : Prop :=
  l.length = n ∧ ∀ c ∈ l, isHexLower c = true

/-- A nonempty list of `\w` characters (a `(\w+)` group). -/
abbrev wordList (l : List Char) : Prop :=
  l ≠ [] ∧ ∀ c ∈ l, isWordChar c = true

/-- The device-prefixed line format recognized by `parse_line` (anchored at
the start of the line; arbitrary trailing characters). -/
def line_fmt_with_device (l : List Char) : Prop :=
  ∃ dev t c v rest,
    l = dev_path_chars ++ dev ++ ':' :: ' ' :: (t ++ ' ' :: (c ++ ' ' :: (v ++ rest))) ∧
    wordList dev ∧ hexList 4 t ∧ hexList 4 c ∧ hexList 8 v

/-- The prefix-less line format recognized by `parse_line` (anchored at the
start of the whitespace-stripped line; arbitrary trailing characters). -/
def line_fmt_plain (l : List Char) : Prop :=
  ∃ t c v rest,
    stripL l = t ++ ' ' :: (c ++ ' ' :: (v ++ rest)) ∧
    hexList 4 t ∧ hexList 4 c ∧ hexList 8 v

/-- Concrete spec example line with a device prefix. -/
def with_device_example : String := "/dev/input/event3: 0003 0035 000001a5"

/-- Concrete spec example of an unparseable line. -/
def garbage_example : String := "garbage"

/-- A prefix-less line with trailing characters after the value field. -/
def plain_trailing_example : String := "0003 0035 000001a5 extra text"

/-- A getevent tracking-id release line (value `0xffffffff`). -/
def tracking_release_line : String := "0003 0039 ffffffff"

/-- The device name of the concrete example. -/
def device_event3 : String := "event3"

/-- A `BTN_TOUCH` press event. -/
def press_event : EventData :=
  { device := default_device, type := EV_KEY, code := BTN_TOUCH, value := 1 }

/-- A `BTN_TOUCH` release event. -/
def release_event : EventData :=
  { device := default_device, type := EV_KEY, code := BTN_TOUCH, value := 0 }

/-- An `ABS_MT_POSITION_X` sample event. -/
def x_event (v : Int) : EventData :=
  { device := default_device, type := EV_ABS, code := ABS_MT_POSITION_X, value := v }

/-- An `ABS_MT_POSITION_Y` sample event. -/
def y_event (v : Int) : EventData :=
  { device := default_device, type := EV_ABS, code := ABS_MT_POSITION_Y, value := v }

/-- An `ABS_MT_TRACKING_ID` event. -/
def tracking_event (v : Int) : EventData :=
  { device := default_device, type := EV_ABS, code := ABS_MT_TRACKING_ID, value := v }

/-- An `EV_SYN` sync event, which the tracker does not recognize. -/
def syn_event : EventData :=
  { device := default_device, type := EV_SYN, code := 0, value := 0 }

/-- The synthetic sequence of the spec: press, X=100, Y=200, X=400, Y=200,
release, with the press at t=1 s and the release at t=1.2 s. -/
def c5_event_seq : List (ℚ × EventData) :=
  [(1, press_event), (1, x_event 100), (1, y_event 200),
   (11 / 10, x_event 400), (11 / 10, y_event 200), (6 / 5, release_event)]

/-- A session whose first X sample is raw 0 (left screen edge), followed by a
release and a fresh press. -/
def c3_event_seq : List (ℚ × EventData) :=
  [(1, press_event), (1, x_event 0), (1, y_event 200),
   (2, release_event), (10, press_event)]

/-- A touch state mid-session with all three start fields populated
(start 75,150 at t=1, current position 300,150). -/
def full_session_state : TouchState :=
  { x := 300, y := 150, tracking_id := 5, touching := true,
    start_x := some 75, start_y := some 150, start_time := some 1 }

/-- A completed session whose start X coordinate is 0. -/
def zero_start_state : TouchState :=
  { x := 300, y := 150, tracking_id := 5, touching := false,
    start_x := some 0, start_y := some 150, start_time := some 1 }

/-- A completed session with dx = -10 and dy = 280 (vertical swipe motion). -/
def c1_session_state : TouchState :=
  { x := 0, y := 300, tracking_id := -1, touching := false,
    start_x := some 10, start_y := some 20, start_time := some 1 }

/-- A completed session with dx = 30, dy = 40 and start at t=1 (a click when
evaluated at t=1.1). -/
def c6_session_state : TouchState :=
  { x := 40, y := 60, tracking_id := -1, touching := false,
    start_x := some 10, start_y := some 20, start_time := some 1 }

/-- A completed session with sub-threshold motion (dx = 30, dy = 40) and a
long duration when evaluated at t=5: no gesture results. -/
def c8_session_state : TouchState :=
  { x := 40, y := 60, tracking_id := 7, touching := true,
    start_x := some 10, start_y := some 20, start_time := some 1 }

/-! Helper lemmas about the matcher combinators. -/

/-- `dropLit` succeeds on exactly the lists extending the literal. -/
lemma dropLit_self (p r : List Char) : dropLit p (p ++ r) = some r := by
  induction p with
  | nil => rfl
  | cons c ps ih => simpa [dropLit] using ih

/-- Inversion for `dropLit`. -/
lemma dropLit_eq_some {p l r : List Char} (h : dropLit p l = some r) :
    l = p ++ r := by
  induction p generalizing l with
  | nil =>
    simp only [dropLit, Option.some.injEq] at h
    simpa using h
  | cons c ps ih =>
    cases l with
    | nil => simp [dropLit] at h
    | cons a l0 =>
      by_cases hac : a = c
      · subst hac
        simp only [dropLit, if_pos rfl] at h
        simpa using ih h
      · simp [dropLit, hac] at h

/-- `takeWordAux` splits a word run followed by a non-word boundary. -/
lemma takeWordAux_append {w r : List Char} (hw : ∀ c ∈ w, isWordChar c = true)
    (hr : ∀ c rs, r = c :: rs → isWordChar c = false) :
    takeWordAux (w ++ r) = (w, r) := by
  induction w with
  | nil =>
    cases r with
    | nil => rfl
    | cons c rs => simp [takeWordAux, hr c rs rfl]
  | cons a w0 ih =>
    have ha : isWordChar a = true := hw a (by simp)
    have := ih (fun c hc => hw c (by simp [hc]))
    simp [takeWordAux, ha, this]

/-- Inversion for `takeWordAux`. -/
lemma takeWordAux_eq {l w r : List Char} (h : takeWordAux l = (w, r)) :
    l = w ++ r ∧ ∀ c ∈ w, isWordChar c = true := by
  induction l generalizing w r with
  | nil =>
    simp only [takeWordAux, Prod.mk.injEq] at h
    obtain ⟨h1, h2⟩ := h
    subst h1
    subst h2
    simp
  | cons a l0 ih =>
    by_cases ha : isWordChar a
    · simp only [takeWordAux, if_pos ha] at h
      injection h with hw hr
      obtain ⟨h1, h2⟩ := ih (w := (takeWordAux l0).1) (r := (takeWordAux l0).2) rfl
      subst hw
      subst hr
      constructor
      · simp [← h1]
      · intro c hc
        rcases List.mem_cons.mp hc with hc | hc
        · simpa [hc] using ha
        · exact h2 c hc
    · simp only [takeWordAux, if_neg ha] at h
      injection h with hw hr
      subst hw
      subst hr
      simp

/-- `expectChar` succeeds on exactly the expected head. -/
lemma expectChar_cons (ch : Char) (l : List Char) :
    expectChar ch (ch :: l) = some l := by
  simp [expectChar]

/-- Inversion for `expectChar`. -/
lemma expectChar_eq_some {ch : Char} {l r : List Char}
    (h : expectChar ch l = some r) : l = ch :: r := by
  cases l with
  | nil => simp [expectChar] at h
  | cons a l0 =>
    by_cases hac : a = ch
    · subst hac
      simp [expectChar] at h
      rw [h]
    · simp [expectChar, hac] at h

/-- `takeHexN` splits an exact-length run of hex characters. -/
lemma takeHexN_append {t : List Char} {n : Nat} (r : List Char)
    (hlen : t.length = n) (ht : ∀ c ∈ t, isHexLower c = true) :
    takeHexN n (t ++ r) = some (t, r) := by
  induction t generalizing n with
  | nil => simp [← hlen, takeHexN]
  | cons a t0 ih =>
    have ha : isHexLower a = true := ht a (by simp)
    cases n with
    | zero => simp at hlen
    | succ m =>
      have hm : t0.length = m := by simpa using hlen
      have := ih (n := m) hm (fun c hc => ht c (by simp [hc]))
      simp [takeHexN, ha, this]

/-- Inversion for `takeHexN`. -/
lemma takeHexN_eq_some {n : Nat} {l t r : List Char}
    (h : takeHexN n l = some (t, r)) :
    l = t ++ r ∧ t.length = n ∧ ∀ c ∈ t, isHexLower c = true := by
  induction n generalizing l t r with
  | zero =>
    simp only [takeHexN, Option.some.injEq, Prod.mk.injEq] at h
    obtain ⟨h1, h2⟩ := h
    subst h1
    subst h2
    simp
  | succ m ih =>
    cases l with
    | nil => simp [takeHexN] at h
    | cons a l0 =>
      by_cases ha : isHexLower a
      · simp only [takeHexN, if_pos ha, Option.map_eq_some'] at h
        obtain ⟨⟨t0, r0⟩, hp, hq⟩ := h
        obtain ⟨h1, h2, h3⟩ := ih hp
        injection hq with ht0 hr0
        subst ht0
        subst hr0
        refine ⟨by simp [h1], by simpa using h2, ?_⟩
        intro c hc
        rcases List.mem_cons.mp hc with hc | hc
        · simpa [hc] using ha
        · exact h3 c hc
      · simp [takeHexN, ha] at h

/-- `dropWhile` does not pass a failing anchor character. -/
lemma dropWhile_append_anchor (p : Char → Bool) (u z : List Char) (b : Char)
    (hb : p b = false) :
    ∃ u2, List.dropWhile p (u ++ b :: z) = u2 ++ b :: z := by
  induction u with
  | nil => exact ⟨[], by simp [List.dropWhile_cons, hb]⟩
  | cons c u0 ih =>
    by_cases h : p c
    · simpa [List.dropWhile_cons, h] using ih
    · exact ⟨c :: u0, by simp [List.dropWhile_cons, h]⟩

/-- `str.strip()` on a list whose interesting part starts and ends with
non-whitespace: the leading part up to the anchor `b` survives, only the
tail beyond `b` may shrink. -/
lemma stripL_anchor (a : Char) (m rest : List Char) (b : Char)
    (ha : isSpacePy a = false) (hb : isSpacePy b = false) :
    ∃ r2, stripL (a :: (m ++ b :: rest)) = a :: (m ++ b :: r2) := by
  have h1 : List.dropWhile isSpacePy (a :: (m ++ b :: rest)) =
      a :: (m ++ b :: rest) := by
    simp [List.dropWhile_cons, ha]
  have h2 : (a :: (m ++ b :: rest)).reverse =
      rest.reverse ++ b :: (m.reverse ++ [a]) := by
    simp [List.reverse_cons, List.reverse_append, List.append_assoc]
  obtain ⟨u2, hu⟩ :=
    dropWhile_append_anchor isSpacePy rest.reverse (m.reverse ++ [a]) b hb
  refine ⟨u2.reverse, ?_⟩
  unfold stripL
  rw [h1, h2, hu]
  simp [List.reverse_append, List.reverse_cons, List.append_assoc]

/-- A `[0-9a-f]` character is not Python whitespace. -/
lemma isSpacePy_eq_false_of_hex {c : Char} (h : isHexLower c = true) :
    isSpacePy c = false := by
  by_contra hs
  rw [Bool.not_eq_false] at hs
  have hc : c = ' ' ∨ c = '\t' ∨ c = '\n' ∨ c = '\r' ∨ c = '\x0b' ∨ c = '\x0c' := by
    simpa [isSpacePy, decide_eq_true_iff, or_assoc] using hs
  rcases hc with rfl | rfl | rfl | rfl | rfl | rfl <;> exact absurd h (by decide)

/-- A `[0-9a-f]` character is not the slash opening `/dev/input/`. -/
lemma ne_slash_of_hex {c : Char} (h : isHexLower c = true) : ¬(c = '/') := by
  intro he
  subst he
  exact absurd h (by decide)

/-- The device-prefixed pattern fails on a line whose first character is a
hex digit (such a line does not start with `/dev/input/`). -/
lemma matchWithDevice_hexhead {a : Char} (l : List Char)
    (ha : isHexLower a = true) : matchWithDevice (a :: l) = none := by
  have hne := ne_slash_of_hex ha
  simp [matchWithDevice, dev_path_chars, dropLit, hne]

/-- Soundness of the plain matcher on any list with a well-formed lead. -/
lemma matchPlain_append {t c v : List Char} (rest : List Char)
    (ht : hexList 4 t) (hc : hexList 4 c) (hv : hexList 8 v) :
    matchPlain (t ++ ' ' :: (c ++ ' ' :: (v ++ rest))) =
      some { device := default_device, type := hexVal t, code := hexVal c,
             value := (hexVal v : Int) } := by
  obtain ⟨htl, hth⟩ := ht
  obtain ⟨hcl, hch⟩ := hc
  obtain ⟨hvl, hvh⟩ := hv
  unfold matchPlain
  rw [takeHexN_append _ htl hth]
  simp only [Option.some_bind]
  rw [expectChar_cons]
  simp only [Option.some_bind]
  rw [takeHexN_append _ hcl hch]
  simp only [Option.some_bind]
  rw [expectChar_cons]
  simp only [Option.some_bind]
  rw [takeHexN_append _ hvl hvh]
  simp only [Option.map_some']

/-- Soundness of the device-prefixed matcher on any list with a well-formed
lead. -/
lemma matchWithDevice_append {dev t c v : List Char} (rest : List Char)
    (hdev : wordList dev) (ht : hexList 4 t) (hc : hexList 4 c)
    (hv : hexList 8 v) :
    matchWithDevice
        (dev_path_chars ++ dev ++ ':' :: ' ' :: (t ++ ' ' :: (c ++ ' ' :: (v ++ rest)))) =
      some { device := String.mk dev, type := hexVal t, code := hexVal c,
             value := (hexVal v : Int) } := by
  obtain ⟨hdne, hdw⟩ := hdev
  obtain ⟨htl, hth⟩ := ht
  obtain ⟨hcl, hch⟩ := hc
  obtain ⟨hvl, hvh⟩ := hv
  unfold matchWithDevice
  rw [List.append_assoc, dropLit_self]
  simp only [Option.some_bind]
  rw [takeWordAux_append hdw (by intro ch rs h; cases h; decide)]
  simp only [if_neg hdne]
  rw [expectChar_cons]
  simp only [Option.some_bind]
  rw [expectChar_cons]
  simp only [Option.some_bind]
  rw [takeHexN_append _ htl hth]
  simp only [Option.some_bind]
  rw [expectChar_cons]
  simp only [Option.some_bind]
  rw [takeHexN_append _ hcl hch]
  simp only [Option.some_bind]
  rw [expectChar_cons]
  simp only [Option.some_bind]
  rw [takeHexN_append _ hvl hvh]
  simp only [Option.map_some']

/-- `parse_line` on any line starting with the device-prefixed pattern:
trailing characters beyond the value field are ignored. -/
lemma parse_lineL_with_device {dev t c v : List Char} (rest : List Char)
    (hdev : wordList dev) (ht : hexList 4 t) (hc : hexList 4 c)
    (hv : hexList 8 v) :
    parse_lineL
        (dev_path_chars ++ dev ++ ':' :: ' ' :: (t ++ ' ' :: (c ++ ' ' :: (v ++ rest)))) =
      some { device := String.mk dev, type := hexVal t, code := hexVal c,
             value := (hexVal v : Int) } := by
  unfold parse_lineL
  rw [matchWithDevice_append rest hdev ht hc hv]

/-- `parse_line` on any line starting with the plain pattern: the device
defaults to `event1` and trailing characters are ignored. -/
lemma parse_lineL_plain {t c v : List Char} (rest : List Char)
    (ht : hexList 4 t) (hc : hexList 4 c) (hv : hexList 8 v) :
    parse_lineL (t ++ ' ' :: (c ++ ' ' :: (v ++ rest))) =
      some { device := default_device, type := hexVal t, code := hexVal c,
             value := (hexVal v : Int) } := by
  obtain ⟨v0, b, hv0⟩ : ∃ v0 b, v = v0 ++ [b] := by
    rcases List.eq_nil_or_concat v with h | ⟨v0, b, h⟩
    · subst h
      simp [hexList] at hv
    · exact ⟨v0, b, by simpa [List.concat_eq_append] using h⟩
  cases t with
  | nil => simp [hexList] at ht
  | cons a t0 =>
    have ha : isHexLower a = true := ht.2 a (by simp)
    have hb : isHexLower b = true := hv.2 b (by simp [hv0])
    have hshape :
        (a :: t0) ++ ' ' :: (c ++ ' ' :: (v ++ rest)) =
          a :: ((t0 ++ ' ' :: (c ++ ' ' :: v0)) ++ b :: rest) := by
      simp [hv0, List.append_assoc]
    obtain ⟨r2, hstrip⟩ :=
      stripL_anchor a (t0 ++ ' ' :: (c ++ ' ' :: v0)) rest b
        (isSpacePy_eq_false_of_hex ha) (isSpacePy_eq_false_of_hex hb)
    have hback :
        a :: ((t0 ++ ' ' :: (c ++ ' ' :: v0)) ++ b :: r2) =
          (a :: t0) ++ ' ' :: (c ++ ' ' :: (v ++ r2)) := by
      simp [hv0, List.append_assoc]
    unfold parse_lineL
    rw [hshape, matchWithDevice_hexhead _ ha, hstrip, hback]
    exact matchPlain_append r2 ht hc hv

/-- Inversion for the plain matcher: success exposes the pattern shape. -/
lemma matchPlain_eq_some {l : List Char} {e : EventData}
    (h : matchPlain l = some e) :
    ∃ t c v rest, l = t ++ ' ' :: (c ++ ' ' :: (v ++ rest)) ∧
      hexList 4 t ∧ hexList 4 c ∧ hexList 8 v := by
  unfold matchPlain at h
  rw [Option.bind_eq_some] at h
  obtain ⟨⟨t, l2⟩, h1, h⟩ := h
  simp only at h
  rw [Option.bind_eq_some] at h
  obtain ⟨l3, h2, h⟩ := h
  rw [Option.bind_eq_some] at h
  obtain ⟨⟨c, l4⟩, h3, h⟩ := h
  simp only at h
  rw [Option.bind_eq_some] at h
  obtain ⟨l5, h4, h⟩ := h
  rw [Option.map_eq_some'] at h
  obtain ⟨⟨v, rest⟩, h5, _⟩ := h
  obtain ⟨e1, e2, e3⟩ := takeHexN_eq_some h1
  obtain ⟨e4, e5, e6⟩ := takeHexN_eq_some h3
  obtain ⟨e7, e8, e9⟩ := takeHexN_eq_some h5
  have f2 := expectChar_eq_some h2
  have f4 := expectChar_eq_some h4
  refine ⟨t, c, v, rest, ?_, ⟨e2, e3⟩, ⟨e5, e6⟩, ⟨e8, e9⟩⟩
  rw [e1, f2, e4, f4, e7]

/-- Inversion for the device-prefixed matcher: success exposes the pattern
shape. -/
lemma matchWithDevice_eq_some {l : List Char} {e : EventData}
    (h : matchWithDevice l = some e) :
    ∃ dev t c v rest,
      l = dev_path_chars ++ dev ++ ':' :: ' ' :: (t ++ ' ' :: (c ++ ' ' :: (v ++ rest))) ∧
      wordList dev ∧ hexList 4 t ∧ hexList 4 c ∧ hexList 8 v := by
  unfold matchWithDevice at h
  rw [Option.bind_eq_some] at h
  obtain ⟨l1, h0, h⟩ := h
  simp only at h
  rcases hw : takeWordAux l1 with ⟨dev, w2⟩
  rw [hw] at h
  simp only at h
  by_cases hdev : dev = []
  · rw [if_pos hdev] at h
    exact absurd h (by simp)
  · rw [if_neg hdev] at h
    rw [Option.bind_eq_some] at h
    obtain ⟨l2, h1, h⟩ := h
    rw [Option.bind_eq_some] at h
    obtain ⟨l3, h2, h⟩ := h
    rw [Option.bind_eq_some] at h
    obtain ⟨⟨t, l4⟩, h3, h⟩ := h
    simp only at h
    rw [Option.bind_eq_some] at h
    obtain ⟨l5, h4, h⟩ := h
    rw [Option.bind_eq_some] at h
    obtain ⟨⟨c, l6⟩, h5, h⟩ := h
    simp only at h
    rw [Option.bind_eq_some] at h
    obtain ⟨l7, h6, h⟩ := h
    rw [Option.map_eq_some'] at h
    obtain ⟨⟨v, rest⟩, h7, _⟩ := h
    obtain ⟨g1, g2⟩ := takeWordAux_eq hw
    have f0 := dropLit_eq_some h0
    have f1 := expectChar_eq_some h1
    have f2 := expectChar_eq_some h2
    obtain ⟨e1, e2, e3⟩ := takeHexN_eq_some h3
    have f4 := expectChar_eq_some h4
    obtain ⟨e4, e5, e6⟩ := takeHexN_eq_some h5
    have f6 := expectChar_eq_some h6
    obtain ⟨e7, e8, e9⟩ := takeHexN_eq_some h7
    refine ⟨dev, t, c, v, rest, ?_, ⟨hdev, g2⟩,
      ⟨e2, e3⟩, ⟨e5, e6⟩, ⟨e8, e9⟩⟩
    rw [f0, g1, f1, f2, e1, f4, e4, f6, e7]
    simp [List.append_assoc]

/-- Completeness of `parse_lineL`: it returns nothing on every line that
matches neither recognized format. -/
lemma parse_lineL_eq_none {l : List Char}
    (h1 : ¬line_fmt_with_device l) (h2 : ¬line_fmt_plain l) :
    parse_lineL l = none := by
  unfold parse_lineL
  cases hm : matchWithDevice l with
  | some e =>
    obtain ⟨dev, t, c, v, rest, hl, hd, ht, hc, hv⟩ := matchWithDevice_eq_some hm
    exact absurd ⟨dev, t, c, v, rest, hl, hd, ht, hc, hv⟩ h1
  | none =>
    cases hp : matchPlain (stripL l) with
    | some e =>
      obtain ⟨t, c, v, rest, hl, ht, hc, hv⟩ := matchPlain_eq_some hp
      exact absurd ⟨t, c, v, rest, hl, ht, hc, hv⟩ h2
    | none => rfl

/-! Evaluation lemmas for the state machine on the concrete sequences. -/

/-- Rescaling of the concrete samples (raw X=100 at y=0). -/
lemma scale_100_0 : scale_coordinate 100 0 = (75, 0) := by decide

/-- Rescaling of the concrete samples (raw Y=200 at x=75). -/
lemma scale_75_200 : scale_coordinate 75 200 = (56, 150) := by decide

/-- Rescaling of the concrete samples (raw X=400 at y=150). -/
lemma scale_400_150 : scale_coordinate 400 150 = (300, 112) := by decide

/-- Rescaling of the concrete samples (raw Y=200 at x=300). -/
lemma scale_300_200 : scale_coordinate 300 200 = (225, 150) := by decide

/-- Rescaling of the concrete samples (raw X=0 at y=0). -/
lemma scale_0_0 : scale_coordinate 0 0 = (0, 0) := by decide

/-- Rescaling of the concrete samples (raw Y=200 at x=0). -/
lemma scale_0_200 : scale_coordinate 0 200 = (0, 150) := by decide

/-- Running the synthetic press/move/release sequence from the initial state:
one swipe-right record with the rescaled coordinates. -/
lemma run_c5_eval :
    run_events c5_event_seq TouchState.init =
      ({ x := 300, y := 150, tracking_id := -1, touching := false,
         start_x := none, start_y := none, start_time := none },
        [ActionRecord.swipe 75 150 300 150 "right"]) := by
  have h1 : process_event 1 press_event TouchState.init =
      (⟨0, 0, -1, true, none, none, some 1⟩, none) := by
    norm_num [process_event, press_event, TouchState.init, EV_KEY, EV_ABS, BTN_TOUCH]
  have h2 : process_event 1 (x_event 100) ⟨0, 0, -1, true, none, none, some 1⟩ =
      (⟨75, 0, -1, true, some 75, none, some 1⟩, none) := by
    norm_num [process_event, x_event, EV_KEY, EV_ABS, BTN_TOUCH,
      ABS_MT_POSITION_X, scale_100_0]
  have h3 : process_event 1 (y_event 200) ⟨75, 0, -1, true, some 75, none, some 1⟩ =
      (⟨75, 150, -1, true, some 75, some 150, some 1⟩, none) := by
    norm_num [process_event, y_event, EV_KEY, EV_ABS, BTN_TOUCH,
      ABS_MT_POSITION_X, ABS_MT_POSITION_Y, scale_75_200]
  have h4 : process_event (11 / 10) (x_event 400)
      ⟨75, 150, -1, true, some 75, some 150, some 1⟩ =
      (⟨300, 150, -1, true, some 75, some 150, some 1⟩, none) := by
    norm_num [process_event, x_event, EV_KEY, EV_ABS, BTN_TOUCH,
      ABS_MT_POSITION_X, scale_400_150]
    simp
  have h5 : process_event (11 / 10) (y_event 200)
      ⟨300, 150, -1, true, some 75, some 150, some 1⟩ =
      (⟨300, 150, -1, true, some 75, some 150, some 1⟩, none) := by
    norm_num [process_event, y_event, EV_KEY, EV_ABS, BTN_TOUCH,
      ABS_MT_POSITION_X, ABS_MT_POSITION_Y, scale_300_200]
  have h6 : process_event (6 / 5) release_event
      ⟨300, 150, -1, true, some 75, some 150, some 1⟩ =
      (⟨300, 150, -1, false, none, none, none⟩,
        some (ActionRecord.swipe 75 150 300 150 "right")) := by
    norm_num [process_event, release_event, EV_KEY, EV_ABS, BTN_TOUCH,
      on_touch_end, touch_end_proceeds, py_truthy_int, py_truthy_time,
      detect_gesture, click_max_duration, click_max_distance,
      swipe_min_distance, direction_name]
  simp [run_events, c5_event_seq, h1, h2, h3, h4, h5, h6]

/-- Running the zero-start-coordinate sequence: the first session's lift is
discarded without clearing, and the fresh press at t=10 still sees the first
session's start samples. -/
lemma run_c3_eval :
    run_events c3_event_seq TouchState.init =
      ({ x := 0, y := 150, tracking_id := -1, touching := true,
         start_x := some 0, start_y := some 150, start_time := some 10 }, []) := by
  have h1 : process_event 1 press_event TouchState.init =
      (⟨0, 0, -1, true, none, none, some 1⟩, none) := by
    norm_num [process_event, press_event, TouchState.init, EV_KEY, EV_ABS, BTN_TOUCH]
  have h2 : process_event 1 (x_event 0) ⟨0, 0, -1, true, none, none, some 1⟩ =
      (⟨0, 0, -1, true, some 0, none, some 1⟩, none) := by
    norm_num [process_event, x_event, EV_KEY, EV_ABS, BTN_TOUCH,
      ABS_MT_POSITION_X, scale_0_0]
  have h3 : process_event 1 (y_event 200) ⟨0, 0, -1, true, some 0, none, some 1⟩ =
      (⟨0, 150, -1, true, some 0, some 150, some 1⟩, none) := by
    norm_num [process_event, y_event, EV_KEY, EV_ABS, BTN_TOUCH,
      ABS_MT_POSITION_X, ABS_MT_POSITION_Y, scale_0_200]
  have h4 : process_event 2 release_event
      ⟨0, 150, -1, true, some 0, some 150, some 1⟩ =
      (⟨0, 150, -1, false, some 0, some 150, some 1⟩, none) := by
    norm_num [process_event, release_event, EV_KEY, EV_ABS, BTN_TOUCH,
      on_touch_end, touch_end_proceeds, py_truthy_int, py_truthy_time]
  have h5 : process_event 10 press_event
      ⟨0, 150, -1, false, some 0, some 150, some 1⟩ =
      (⟨0, 150, -1, true, some 0, some 150, some 10⟩, none) := by
    norm_num [process_event, press_event, EV_KEY, EV_ABS, BTN_TOUCH]
  simp [run_events, c3_event_seq, h1, h2, h3, h4, h5]

/-! The claim theorems. -/

/-- C1 counterexample: a completed session with dx = -10, dy = 280 satisfies
the swipe rule with vertical dominance and dy > 0, yet `detect_gesture`
returns SWIPE_UP, not the claimed SWIPE_DOWN. -/
theorem c1_counterexample :
    detect_gesture 2 c1_session_state = some GestureType.SWIPE_UP ∧
    (detect_gesture 2 c1_session_state = some GestureType.SWIPE_DOWN) = False := by
  have h : detect_gesture 2 c1_session_state = some GestureType.SWIPE_UP := by
    norm_num [detect_gesture, c1_session_state, click_max_duration,
      click_max_distance, swipe_min_distance]
  refine ⟨h, eq_false ?_⟩
  intro hc
  rw [h] at hc
  exact absurd hc (by decide)

/-- C1 (amended): when the classifier judges a swipe (the click rule did not
fire and the squared distance reaches the swipe threshold) with
`|dx| ≤ |dy|`, the result is SWIPE_UP when dy > 0 and SWIPE_DOWN otherwise;
in particular dx = -10, dy = 280 classifies as SWIPE_UP. -/
theorem c1_vertical_swipe_direction (now : ℚ) (s : TouchState) (sx sy : Int)
    (st : ℚ) (hx : s.start_x = some sx) (hy : s.start_y = some sy)
    (ht : s.start_time = some st)
    (hclick : ¬(now - st ≤ click_max_duration ∧
      (s.x - sx) ^ 2 + (s.y - sy) ^ 2 ≤ click_max_distance ^ 2))
    (hswipe : (s.x - sx) ^ 2 + (s.y - sy) ^ 2 ≥ swipe_min_distance ^ 2)
    (hvert : |s.x - sx| ≤ |s.y - sy|) :
    detect_gesture now s =
      some (if s.y - sy > 0 then GestureType.SWIPE_UP else GestureType.SWIPE_DOWN) := by
  have hnlt : ¬(|s.x - sx| > |s.y - sy|) := not_lt.mpr hvert
  by_cases hdy : s.y - sy > 0 <;>
    simp [detect_gesture, hx, hy, ht, hclick, hswipe, hnlt, hdy] <;>
    exact fun hle => lt_of_not_le fun hd => hclick ⟨by linarith, hd⟩

/-- C1 witness: the amended direction rule applied to the dx = -10, dy = 280
session. -/
theorem c1_witness : detect_gesture 2 c1_session_state = some GestureType.SWIPE_UP := by
  have h := c1_vertical_swipe_direction 2 c1_session_state 10 20 1 rfl rfl rfl
    (by norm_num [click_max_duration, click_max_distance, c1_session_state])
    (by norm_num [swipe_min_distance, c1_session_state])
    (by norm_num [c1_session_state])
  simpa [c1_session_state] using h

/-- C2: the line `0003 0039 ffffffff` (tracking-id release) parses with the
unsigned value 4294967295, not -1; processing that parsed event does not run
touch-end evaluation (the session's start fields persist and no action is
produced), while an event whose value actually is -1 does run it. -/
theorem c2_tracking_release_parsed_unsigned :
    parse_line tracking_release_line = some (tracking_event 4294967295) ∧
    process_event 2 (tracking_event 4294967295) full_session_state =
      ({ full_session_state with tracking_id := 4294967295 }, none) ∧
    process_event 2 (tracking_event (-1)) full_session_state =
      ({ full_session_state with
          tracking_id := -1, start_x := none, start_y := none,
          start_time := none },
        some (ActionRecord.swipe 75 150 300 150 "right")) := by
  refine ⟨by decide, ?_, ?_⟩
  · norm_num [process_event, tracking_event, full_session_state, EV_KEY,
      EV_ABS, BTN_TOUCH, ABS_MT_POSITION_X, ABS_MT_POSITION_Y,
      ABS_MT_TRACKING_ID]
  · norm_num [process_event, tracking_event, full_session_state, EV_KEY,
      EV_ABS, BTN_TOUCH, ABS_MT_POSITION_X, ABS_MT_POSITION_Y,
      ABS_MT_TRACKING_ID, on_touch_end, touch_end_proceeds, py_truthy_int,
      py_truthy_time, detect_gesture, click_max_duration, click_max_distance,
      swipe_min_distance, direction_name]

/-- C3: after a session whose first X sample rescaled to 0, the release at
t=2 discards the session without clearing, and the fresh press at t=10 still
sees start_x = 0 and start_y = 150 sampled during the previous session. -/
theorem c3_stale_start_across_sessions :
    run_events c3_event_seq TouchState.init =
      ({ x := 0, y := 150, tracking_id := -1, touching := true,
         start_x := some 0, start_y := some 150, start_time := some 10 }, []) :=
  run_c3_eval

/-- C4: a completed session whose set start coordinate equals 0 is treated as
unset by the truthiness guard: touch-end evaluation does not proceed, no
gesture is produced, and the start fields are not even cleared. -/
theorem c4_zero_start_coordinate_not_evaluated :
    zero_start_state.start_x = some 0 ∧
    zero_start_state.start_y = some 150 ∧
    zero_start_state.start_time = some 1 ∧
    on_touch_end 2 zero_start_state = (zero_start_state, none) :=
  ⟨rfl, rfl, rfl, by decide⟩

/-- C5 counterexample: the synthetic press, X=100, Y=200, X=400, Y=200,
release sequence produces exactly one swipe record, but its recorded
coordinates are the rescaled (75,150) to (300,150), not (100,200) to
(400,200). -/
theorem c5_counterexample :
    (run_events c5_event_seq TouchState.init).2 =
      [ActionRecord.swipe 75 150 300 150 "right"] ∧
    (ActionRecord.swipe 75 150 300 150 "right" =
      ActionRecord.swipe 100 200 400 200 "right") = False :=
  ⟨by rw [run_c5_eval], eq_false (by decide)⟩

/-- C5 (amended): feeding press, X=100, Y=200, X=400, Y=200, release through
the tracker yields exactly one gesture, a SWIPE_RIGHT whose recorded start is
the rescaled (75,150) and whose recorded end is the rescaled (300,150). -/
theorem c5_single_swipe_right :
    run_events c5_event_seq TouchState.init =
      ({ x := 300, y := 150, tracking_id := -1, touching := false,
         start_x := none, start_y := none, start_time := none },
        [ActionRecord.swipe 75 150 300 150 "right"]) :=
  run_c5_eval

/-- C6: whenever touch-end evaluation proceeds and the session satisfies the
click rule (duration within `click_max_duration`, squared distance within
`click_max_distance` squared), the classifier returns CLICK located at the
session's end coordinates, and the start fields are cleared. -/
theorem c6_click_at_end_coordinates (now : ℚ) (s : TouchState) (sx sy : Int)
    (st : ℚ) (hx : s.start_x = some sx) (hy : s.start_y = some sy)
    (ht : s.start_time = some st) (hp : touch_end_proceeds s = true)
    (hdur : now - st ≤ click_max_duration)
    (hdist : (s.x - sx) ^ 2 + (s.y - sy) ^ 2 ≤ click_max_distance ^ 2) :
    on_touch_end now s =
      ({ s with start_x := none, start_y := none, start_time := none },
        some (ActionRecord.click s.x s.y)) := by
  have hdet : detect_gesture now s = some GestureType.CLICK := by
    simp [detect_gesture, hx, hy, ht, hdur, hdist]
  unfold on_touch_end
  rw [if_pos hp, hdet]

/-- C6 witness: the session with duration 0.1 s, dx = 30, dy = 40
(distance 50) classifies as a CLICK at the end position (40, 60). -/
theorem c6_witness :
    on_touch_end (11 / 10) c6_session_state =
      ({ c6_session_state with
          start_x := none, start_y := none, start_time := none },
        some (ActionRecord.click 40 60)) := by
  have h := c6_click_at_end_coordinates (11 / 10) c6_session_state 10 20 1
    rfl rfl rfl (by decide)
    (by norm_num [click_max_duration])
    (by norm_num [c6_session_state, click_max_distance])
  simpa [c6_session_state] using h

/-- C7: the line parser recognizes exactly the two formats.  Every
device-prefixed line yields an event carrying the device id from the prefix;
every prefix-less line yields an event with the fixed default device id
`event1`; every line matching neither (prefix-anchored) format yields
nothing; and the two concrete spec examples evaluate as stated. -/
theorem c7_parse_line_two_formats :
    (∀ dev t c v, wordList dev → hexList 4 t → hexList 4 c → hexList 8 v →
      parse_lineL (dev_path_chars ++ dev ++ ':' :: ' ' :: (t ++ ' ' :: (c ++ ' ' :: v))) =
        some { device := String.mk dev, type := hexVal t, code := hexVal c,
               value := (hexVal v : Int) }) ∧
    (∀ t c v, hexList 4 t → hexList 4 c → hexList 8 v →
      parse_lineL (t ++ ' ' :: (c ++ ' ' :: v)) =
        some { device := default_device, type := hexVal t, code := hexVal c,
               value := (hexVal v : Int) }) ∧
    (∀ l, ¬line_fmt_with_device l → ¬line_fmt_plain l → parse_lineL l = none) ∧
    parse_line with_device_example =
      some { device := device_event3, type := 0x0003, code := 0x0035,
             value := 0x01a5 } ∧
    parse_line garbage_example = none := by
  refine ⟨?_, ?_, ?_, by decide, by decide⟩
  · intro dev t c v hdev ht hc hv
    have h := parse_lineL_with_device [] hdev ht hc hv
    simpa using h
  · intro t c v ht hc hv
    have h := parse_lineL_plain [] ht hc hv
    simpa using h
  · intro l h1 h2
    exact parse_lineL_eq_none h1 h2

/-- C7 witness: the device-prefixed format applied to the concrete example
characters. -/
theorem c7_witness :
    parse_lineL (dev_path_chars ++ ['e', 'v', 'e', 'n', 't', '3'] ++ ':' :: ' ' ::
        (['0', '0', '0', '3'] ++ ' ' :: (['0', '0', '3', '5'] ++ ' ' ::
          ['0', '0', '0', '0', '0', '1', 'a', '5']))) =
      some { device := String.mk ['e', 'v', 'e', 'n', 't', '3'],
             type := hexVal ['0', '0', '0', '3'],
             code := hexVal ['0', '0', '3', '5'],
             value := (hexVal ['0', '0', '0', '0', '0', '1', 'a', '5'] : Int) } :=
  c7_parse_line_two_formats.1 _ _ _ _ (by decide) (by decide) (by decide) (by decide)

/-- C8: whenever touch-end evaluation proceeds, the resulting state has
start_x, start_y and start_time all cleared, while tracking_id, touching, x
and y keep their previous values — whether or not a gesture was produced. -/
theorem c8_touch_end_clears_start_only (now : ℚ) (s : TouchState)
    (hp : touch_end_proceeds s = true) :
    (on_touch_end now s).1.start_x = none ∧
    (on_touch_end now s).1.start_y = none ∧
    (on_touch_end now s).1.start_time = none ∧
    (on_touch_end now s).1.tracking_id = s.tracking_id ∧
    (on_touch_end now s).1.touching = s.touching ∧
    (on_touch_end now s).1.x = s.x ∧
    (on_touch_end now s).1.y = s.y := by
  unfold on_touch_end
  rw [if_pos hp]
  exact ⟨rfl, rfl, rfl, rfl, rfl, rfl, rfl⟩

/-- C8 witness: a proceeding touch-end on a sub-threshold session (which
produces no gesture) still clears exactly the three start fields. -/
theorem c8_witness :
    (on_touch_end 5 c8_session_state).1.start_x = none ∧
    (on_touch_end 5 c8_session_state).1.start_y = none ∧
    (on_touch_end 5 c8_session_state).1.start_time = none ∧
    (on_touch_end 5 c8_session_state).1.tracking_id = 7 ∧
    (on_touch_end 5 c8_session_state).1.touching = true ∧
    (on_touch_end 5 c8_session_state).1.x = 40 ∧
    (on_touch_end 5 c8_session_state).1.y = 60 := by
  have h := c8_touch_end_clears_start_only 5 c8_session_state (by decide)
  simpa [c8_session_state] using h

/-- C9: an event whose (type, code) pair is none of the four recognized pairs
leaves the touch state unchanged and produces no action. -/
theorem c9_unrecognized_event_ignored (now : ℚ) (e : EventData) (s : TouchState)
    (h1 : ¬(e.type = EV_KEY ∧ e.code = BTN_TOUCH))
    (h2 : ¬(e.type = EV_ABS ∧ e.code = ABS_MT_POSITION_X))
    (h3 : ¬(e.type = EV_ABS ∧ e.code = ABS_MT_POSITION_Y))
    (h4 : ¬(e.type = EV_ABS ∧ e.code = ABS_MT_TRACKING_ID)) :
    process_event now e s = (s, none) := by
  unfold process_event
  rw [if_neg h1, if_neg h2, if_neg h3, if_neg h4]

/-- C9 witness: an `EV_SYN` sync event is a no-op on the initial state. -/
theorem c9_witness :
    process_event 1 syn_event TouchState.init = (TouchState.init, none) :=
  c9_unrecognized_event_ignored 1 syn_event TouchState.init
    (by decide) (by decide) (by decide) (by decide)

/-- C10: matching is prefix-anchored; arbitrary trailing characters after the
value field do not change the decoded event, in either format. -/
theorem c10_trailing_characters_ignored :
    (∀ dev t c v rest, wordList dev → hexList 4 t → hexList 4 c → hexList 8 v →
      parse_lineL
          (dev_path_chars ++ dev ++ ':' :: ' ' :: (t ++ ' ' :: (c ++ ' ' :: (v ++ rest)))) =
        some { device := String.mk dev, type := hexVal t, code := hexVal c,
               value := (hexVal v : Int) }) ∧
    (∀ t c v rest, hexList 4 t → hexList 4 c → hexList 8 v →
      parse_lineL (t ++ ' ' :: (c ++ ' ' :: (v ++ rest))) =
        some { device := default_device, type := hexVal t, code := hexVal c,
               value := (hexVal v : Int) }) :=
  ⟨fun _ _ _ _ rest hdev ht hc hv => parse_lineL_with_device rest hdev ht hc hv,
   fun _ _ _ rest ht hc hv => parse_lineL_plain rest ht hc hv⟩

/-- C10 witness: `0003 0035 000001a5` followed by ` extra text` decodes to the
same event as the bare line. -/
theorem c10_witness :
    parse_lineL (['0', '0', '0', '3'] ++ ' ' :: (['0', '0', '3', '5'] ++ ' ' ::
        (['0', '0', '0', '0', '0', '1', 'a', '5'] ++
          [' ', 'e', 'x', 't', 'r', 'a', ' ', 't', 'e', 'x', 't']))) =
      some { device := default_device, type := hexVal ['0', '0', '0', '3'],
             code := hexVal ['0', '0', '3', '5'],
             value := (hexVal ['0', '0', '0', '0', '0', '1', 'a', '5'] : Int) } :=
  c10_trailing_characters_ignored.2 _ _ _ _ (by decide) (by decide) (by decide)
